import Mathlib

/-!
Verification of the forecasting-agent core: a shallow embedding of
`src/agent.py` (`ForecastingAgent.process_query`, `_plan_and_execute`),
`src/tools_manager.py` (`ToolsManager.execute_code`, `format_code_output`) and
`src/memory_manager.py` (`MemoryManager`), together with theorems settling
claims about the repair loop, the execution sandbox and the response parser.

Python strings are modelled as lists of characters.  Wall-clock timestamps and
console printing are not modelled.  External collaborators (the LLM oracle,
`input()`, the Python `exec` semantics of arbitrary snippets, pandas
`read_csv` / `to_datetime`, pip installation) are parameters collected in an
`Env` record; the agent functions are deterministic in `Env` and thread
explicit call counters for each consumed stream.
-/

/-- Python strings are modelled as lists of characters. -/
abbrev Str := List Char

/-- View of a Lean string literal as a `Str`. -/
def lit (s : String) : Str := s.data

/-- Characters stripped by Python `str.strip()` (ASCII whitespace). -/
def isPySpace (c : Char) : Bool :=
  c = ' ' || c = '\t' || c = '\n' || c = '\r' || c = '\x0b' || c = '\x0c'

/-- Python `s.strip()`. -/
def pyStrip (s : Str) : Str :=
  ((s.dropWhile isPySpace).reverse.dropWhile isPySpace).reverse

/-- Python `s.lower()`. -/
def pyLower (s : Str) : Str := s.map Char.toLower

/-- Python `s.upper()`. -/
def pyUpper (s : Str) : Str := s.map Char.toUpper

/-- Python `s.startswith(p)`. -/
def pyStartsWith (s p : Str) : Bool := p.isPrefixOf s

/-- Occurrence test: `sub` occurs in `s` at position `i`
(Python `s[i:i+len(sub)] == sub`, with the bound check implied). -/
def substrAt (s sub : Str) (i : Nat) : Bool := sub.isPrefixOf (s.drop i)

/-- Scan positions `i, i+1, ...` (at most `fuel` of them) for the first
occurrence of `sub` in `s`. -/
def findFromAux (s sub : Str) : Nat → Nat → Option Nat
  | _, 0 => none
  | i, fuel+1 => if substrAt s sub i then some i else findFromAux s sub (i+1) fuel

/-- First position `>= start` at which `sub` occurs in `s`. -/
def findFrom (s sub : Str) (start : Nat) : Option Nat :=
  findFromAux s sub start (s.length + 1 - start)

/-- Python `s.find(sub, start)`: position of the first occurrence at or after
`start`, and `-1` when there is none. -/
def pyFind (s sub : Str) (start : Nat) : Int :=
  match findFrom s sub start with
  | some i => (i : Int)
  | none => -1

/-- Python `sub in s`. -/
def containsSub (s sub : Str) : Bool := (findFrom s sub 0).isSome

/-- Python slice `s[a:b]` for `0 <= a <= b`. -/
def pySlice (s : Str) (a b : Nat) : Str := (s.drop a).take (b - a)

/-- Python `s.split(sep, 1)[1]` for `sep` occurring in `s` (the text after the
first occurrence); every caller guards this with `sep in s`. -/
def afterFirst (s sep : Str) : Str :=
  match findFrom s sep 0 with
  | some i => s.drop (i + sep.length)
  | none => s

/-- Remainder of `line` after its first colon, Python `line.split(':', 1)[1]`;
every caller guards this with a `startswith` check that guarantees a colon. -/
def afterColon (line : Str) : Str := (line.dropWhile (fun c => c ≠ ':')).drop 1

/-- Python `s.split('\n')`. -/
def splitLines : Str → List Str
  | [] => [[]]
  | c :: rest =>
    let r := splitLines rest
    if c = '\n' then [] :: r
    else
      match r with
      | h :: t => (c :: h) :: t
      | [] => [[c]]

/-- Python truthiness of an optional string: `None` and the empty string are
falsy. -/
def truthy : Option Str → Bool
  | none => false
  | some s => !s.isEmpty

/-- Decimal rendering of a natural number. -/
def natStr (n : Nat) : Str := (Nat.repr n).data

/-- Rendering of an optional string the way a Python f-string renders it
(`None` for the absent case). -/
def optStr : Option Str → Str
  | none => lit "None"
  | some s => s

/-- A Python exception, reduced to its class name and its `str(e)` rendering. -/
structure PyExc where
  name : Str
  msg : Str
deriving DecidableEq, Repr

/-- Observable part of a pandas frame used by the agent: shape, column names,
per-column dtypes and per-column null counts, exactly the fields the
diagnostic bundle of `execute_code` snapshots.  The extra flag
`date_parseable` models the external pandas behaviour of
`pd.to_datetime(df['date'])`: whether the contents of the `date` column parse
(when they do not, the conversion raises). -/
structure DataFrame where
  nrows : Nat
  ncols : Nat
  columns : List Str
  dtypes : List (Str × Str)
  null_counts : List (Str × Nat)
  date_parseable : Bool
deriving DecidableEq, Repr

/-- Values living in the sandbox namespace. -/
inductive PyVal where
  | pdModule
  | npModule
  | frame (df : DataFrame)
  | intVal (n : Int)
  | strVal (s : Str)
deriving DecidableEq, Repr

/-- The `local_vars` dict of `execute_code`: an insertion-ordered mapping from
names to values. -/
abbrev PyNs := List (Str × PyVal)

/-- The `data_info` snapshot taken by `execute_code` from the bound frame. -/
structure DataInfo where
  shape : Nat × Nat
  columns : List Str
  dtypes : List (Str × Str)
  null_counts : List (Str × Nat)
deriving DecidableEq, Repr

/-- The `debug_info` dict of `execute_code`. -/
structure DebugInfo where
  data_info : Option DataInfo
  imports_loaded : List Str
  execution_step : Str
deriving DecidableEq, Repr

/-- The `error_context` dict built in the exception handler of
`execute_code`. -/
structure ErrorContext where
  error_type : Str
  error_msg : Str
  debug_info : DebugInfo
  traceback : Str
deriving DecidableEq, Repr

/-- The dict returned by `execute_code`.  The keys `debug_info` and
`error_context` are absent (`none`) in, respectively, the failure and the
success shape, mirroring the Python dicts. -/
structure ExecResult where
  output : Str
  results : Option PyNs
  success : Bool
  debug_info : Option DebugInfo
  error_context : Option ErrorContext
deriving DecidableEq, Repr

/-- Outcome of Python `exec(code, globals(), local_vars)` on an
agent-generated snippet: the captured stdout, the final `local_vars`, and the
state of the caller-visible frame object after execution (the snippet may
mutate it in place), or an exception together with the frame state at raise
time.  This is the abstract semantics of arbitrary snippet code. -/
inductive PyOutcome where
  | ok (stdout : Str) (finalNs : PyNs) (dfAfter : Option DataFrame)
  | raises (e : PyExc) (dfAfter : Option DataFrame)
deriving DecidableEq, Repr

/-- Result of `ToolsManager.generate_descriptive_analysis`, treated as an
opaque external computation (pandas descriptive statistics). -/
structure Analysis where
  rendered : Str
deriving DecidableEq, Repr

/-- An `AttemptRecord`: the dict appended to `attempt_history` after a failed
execution inside the repair loop of `_plan_and_execute`.  The Python dict
fetches `debug_info` and `error_context` with `result.get(key, \x7b\x7d)`;
the absent case is `none` here. -/
structure AttemptRec where
  attempt : Nat
  code : Str
  error : Str
  debug_info : Option DebugInfo
  error_context : Option ErrorContext
deriving DecidableEq, Repr

/-- The dict recorded by `MemoryManager.store_interaction` (timestamps are
wall-clock values and are not modelled). -/
structure Interaction where
  query : Str
  response : Str
  code : Option Str
  error : Option Str
  fixes : Option (List AttemptRec)
  result : Option Str
deriving DecidableEq, Repr

/-- The dict recorded by `MemoryManager.store_dataset_info`. -/
structure DatasetInfo where
  target_column : Option Str
  series_id_column : Option Str
  shape : Nat × Nat
  columns : List Str
deriving DecidableEq, Repr

/-- Payload of a short-term-memory entry. -/
inductive MemContent where
  | datasetInfo (i : DatasetInfo)
  | analysis (a : Analysis)
  | interaction (i : Interaction)
deriving DecidableEq, Repr

/-- One entry of the short-term memory list. -/
structure MemItem where
  type : Str
  content : MemContent
deriving DecidableEq, Repr

/-- The state held by `MemoryManager` (the session id is a wall-clock
timestamp and is not modelled). -/
structure Memory where
  short_term_memory : List MemItem
  long_term_memory : List MemItem
  conversation_history : List Interaction
  last_execution : Option Interaction
deriving DecidableEq, Repr

/-- `MemoryManager.store_dataset_info`. -/
def store_dataset_info (m : Memory) (info : DatasetInfo) : Memory :=
  { m with short_term_memory := m.short_term_memory ++
      [{ type := lit "dataset_info", content := .datasetInfo info }] }

/-- `MemoryManager.store_analysis`. -/
def store_analysis (m : Memory) (a : Analysis) : Memory :=
  { m with short_term_memory := m.short_term_memory ++
      [{ type := lit "analysis", content := .analysis a }] }

/-- `MemoryManager.store_interaction`. -/
def store_interaction (m : Memory) (query response : Str) (code error : Option Str)
    (fixes : Option (List AttemptRec)) (result : Option Str) : Memory :=
  let i : Interaction :=
    { query := query, response := response, code := code, error := error,
      fixes := fixes, result := result }
  { m with
    conversation_history := m.conversation_history ++ [i],
    last_execution := some i,
    short_term_memory := m.short_term_memory ++
      [{ type := lit "interaction", content := .interaction i }] }

/-- The most recent analysis, as retrieved by
`MemoryManager.get_relevant_context` (reverse scan of short-term memory). -/
def get_last_analysis (m : Memory) : Option Analysis :=
  (m.short_term_memory.reverse.find? (fun it => it.type = lit "analysis")).bind
    (fun it => match it.content with | .analysis a => some a | _ => none)

/-- The fields of `ForecastingAgent` that the claims touch: the memory
manager, whether `self.llm` is initialized, the loaded dataset, the
`current_context` entries, the last-execution fields and the consumption
counters for the oracle and operator-input streams (model artifacts standing
for the order of the external calls). -/
structure AgentSt where
  memory : Memory
  llm_ready : Bool
  current_data : Option DataFrame
  csv_path : Option Str
  target_column : Option Str
  series_id_column : Option Str
  data_info : Option Str
  last_code : Option Str
  last_error : Option Str
  last_result : Option Str
  llmIdx : Nat
  inIdx : Nat
deriving DecidableEq, Repr

/-- External collaborators, as the spec prescribes (oracle, operator,
snippet semantics, pandas, pip).  Each stream-like collaborator is a function
of the call counter threaded through `AgentSt`. -/
structure Env where
  llm : Nat → Str → Except PyExc Str
  user_input : Nat → Str
  pySem : Str → PyNs → PyOutcome
  deps_ok : Str → Bool
  read_csv : Option Str → Except PyExc DataFrame
  desc_analysis : DataFrame → Option Str → Option Str → Except PyExc Analysis
  forecast : DataFrame → Option Str → Option Str → Except PyExc Str

/-- Replace the value bound to key `k` in an association list (Python dict
assignment to an existing key). -/
def assocSet (l : List (Str × Str)) (k v : Str) : List (Str × Str) :=
  l.map (fun kv => if kv.1 = k then (k, v) else kv)

/-- Model of the external pandas expression
`df['date'] = pd.to_datetime(df['date'])` executed by `execute_code`: when the
column contents parse, the dtype of the `date` column becomes
`datetime64[ns]` in place — shape, column names and null counts are unchanged
(spec 4.3: a dataset exposing a `date` column is coerced to a temporal type
before binding); when they do not parse, the call raises. -/
def convertDate (df : DataFrame) : DataFrame :=
  { df with dtypes := assocSet df.dtypes (lit "date") (lit "datetime64[ns]") }

/-- Continuation of the pandas model: the conversion itself, raising on
unparseable contents. -/
def to_datetime_date (df : DataFrame) : Except PyExc DataFrame :=
  if df.date_parseable then
    .ok (convertDate df)
  else
    .error { name := lit "ValueError", msg := lit "Unknown datetime string format" }

/-- Rendering used where Python calls `str(value)` on a namespace value.
Module and frame renderings are external cosmetic formatting, modelled
opaquely. -/
def pyValStr : PyVal → Str
  | .pdModule => lit "<module pandas>"
  | .npModule => lit "<module numpy>"
  | .frame df => lit "DataFrame(" ++ natStr df.nrows ++ lit " rows)"
  | .intVal n => (Int.repr n).data
  | .strVal s => s

/-- Python `str` of the `results` dict, used for `self._last_error` on a
successful execution. -/
def dictStr (ns : PyNs) : Str :=
  lit "\x7b" ++
  List.intercalate (lit ", ")
    (ns.map (fun kv => lit "\x27" ++ kv.1 ++ lit "\x27: " ++ pyValStr kv.2)) ++
  lit "\x7d"

/-- Python `str` of a shape tuple. -/
def shapeStr (p : Nat × Nat) : Str :=
  lit "(" ++ natStr p.1 ++ lit ", " ++ natStr p.2 ++ lit ")"

/-- Python `str` of a list of column names. -/
def colsStr (cols : List Str) : Str :=
  lit "[" ++
  List.intercalate (lit ", ") (cols.map (fun c => lit "\x27" ++ c ++ lit "\x27")) ++
  lit "]"

/-- The `data_info` snapshot of `execute_code`, taken from the bound frame
before the datetime conversion. -/
def data_info_of (df : DataFrame) : DataInfo :=
  { shape := (df.nrows, df.ncols), columns := df.columns,
    dtypes := df.dtypes, null_counts := df.null_counts }

/-- Header prepended by `execute_code` when the snippet text mentions
`import plotly`. -/
def plotlyHeader : Str :=
  lit "import warnings\nwarnings.filterwarnings(\x27ignore\x27, \x27Importing plotly failed\x27)\n"

/-- Textual stack trace attached to `error_context` (the Python value comes
from `traceback.format_exc()`; only its presence matters, so it is modelled
as a deterministic rendering of the exception). -/
def tracebackStr (e : PyExc) : Str :=
  lit "Traceback (most recent call last):\n" ++ e.name ++ lit ": " ++ e.msg

/-- The `error_msg` string composed in the exception handler of
`execute_code`. -/
def error_message (e : PyExc) (dbg : DebugInfo) : Str :=
  lit "Error executing code: " ++ e.msg ++ lit "\n" ++
  lit "\nDebug Information:\n" ++
  lit "Error Type: " ++ e.name ++ lit "\n" ++
  lit "Last Execution Step: " ++ dbg.execution_step ++ lit "\n" ++
  (match dbg.data_info with
   | none => []
   | some di =>
     lit "\nDataFrame Info:\n" ++
     lit "Shape: " ++ shapeStr di.shape ++ lit "\n" ++
     lit "Columns: " ++ colsStr di.columns ++ lit "\n" ++
     lit "Data Types:\n" ++
     (di.dtypes.map (fun cd => lit "  " ++ cd.1 ++ lit ": " ++ cd.2 ++ lit "\n")).flatten ++
     lit "Null Counts:\n" ++
     ((di.null_counts.filter (fun cc => 0 < cc.2)).map
       (fun cc => lit "  " ++ cc.1 ++ lit ": " ++ natStr cc.2 ++ lit "\n")).flatten)

/-- The failure shape returned by the exception handler of `execute_code`:
`success=false`, no `results`, no top-level `debug_info` key, and an
`error_context` holding the exception kind, message, the `debug_info` dict as
it stood when the exception was raised, and a traceback. -/
def execFailure (e : PyExc) (dbg : DebugInfo) : ExecResult :=
  { output := error_message e dbg,
    results := none, success := false, debug_info := none,
    error_context := some
      { error_type := e.name, error_msg := e.msg, debug_info := dbg,
        traceback := tracebackStr e } }

/-- Names excluded from `returned_bindings`
(`k not in ['df', 'pd', 'np']` in the comprehension of `execute_code`). -/
def reservedNames : List Str := [lit "df", lit "pd", lit "np"]

/-- Stages of `execute_code` before `exec`: build `debug_info` with the
`data_info` snapshot of the frame, seed `local_vars` with `pd`, `np` and
(when supplied) `df`, and convert the `date` column in place when it exists.
Returns the debug info, the namespace and the caller-visible frame, or the
exception together with the debug info and frame state at raise time.
`local_vars['df']` is bound before the conversion, but it aliases the frame
object, so the namespace sees the converted frame. -/
def exec_prelude (df? : Option DataFrame) :
    Except (PyExc × DebugInfo × Option DataFrame) (DebugInfo × PyNs × Option DataFrame) :=
  let dbg0 : DebugInfo :=
    { data_info := df?.map data_info_of, imports_loaded := [],
      execution_step := lit "initializing" }
  match df? with
  | none => .ok (dbg0, [(lit "pd", .pdModule), (lit "np", .npModule)], none)
  | some df =>
    if df.columns.contains (lit "date") then
      match to_datetime_date df with
      | .error e => .error (e, dbg0, some df)
      | .ok dfC =>
        .ok ({ dbg0 with execution_step := lit "datetime conversion done" },
             [(lit "pd", .pdModule), (lit "np", .npModule), (lit "df", .frame dfC)],
             some dfC)
    else
      .ok (dbg0, [(lit "pd", .pdModule), (lit "np", .npModule), (lit "df", .frame df)],
           some df)

/-- Header-prepending step of `execute_code`: when the snippet text mentions
`import plotly`, the warnings header is prepended before anything else. -/
def withPlotlyHeader (code_snippet : Str) : Str :=
  if containsSub code_snippet (lit "import plotly")
  then plotlyHeader ++ code_snippet else code_snippet

/-- `ToolsManager.execute_code` (tools_manager.py lines 215-313).  The pair
returned is the result dict together with the caller-visible frame after the
call (the datetime conversion and the snippet itself may mutate it in place).
`env.deps_ok` stands for `check_and_install_dependencies` (console and pip
interaction); `env.pySem` is the semantics of `exec` on the snippet.  The
try/except of the source is the `Except` pattern match: every exception
raised inside the body is converted into the `execFailure` shape, never
propagated. -/
def execute_code (env : Env) (code_snippet : Str) (df? : Option DataFrame) :
    ExecResult × Option DataFrame :=
  let code := withPlotlyHeader code_snippet
  if !(env.deps_ok code) then
    ({ output := lit "Required packages not installed. Cannot execute code.",
       results := none, success := false, debug_info := none,
       error_context := none }, df?)
  else
    match exec_prelude df? with
    | .error (e, dbg, df1) => (execFailure e dbg, df1)
    | .ok (dbg1, ns, _) =>
      let dbg2 := { dbg1 with execution_step := lit "executing code" }
      match env.pySem code ns with
      | .raises e dfA =>
        (execFailure e dbg2, if df?.isSome then dfA else none)
      | .ok stdout ns' dfA =>
        let dbg3 := { dbg2 with execution_step := lit "collecting results" }
        let results := ns'.filter
          (fun kv => !(reservedNames.contains kv.1) && !(pyStartsWith kv.1 (lit "__")))
        ({ output := stdout, results := some results, success := true,
           debug_info := some dbg3, error_context := none },
         if df?.isSome then dfA else none)

/-- Rendering of one returned variable in `format_code_output`: frames go
through the external `tabulate` formatter (modelled opaquely), everything
else through `str`. -/
def pyValRender : PyVal → Str
  | .frame df => lit "<table " ++ natStr df.nrows ++ lit "x" ++ natStr df.ncols ++ lit ">"
  | v => pyValStr v

/-- `ToolsManager.format_code_output`. -/
def format_code_output (r : ExecResult) : Str :=
  let header := [lit "\n=== Code Execution Results ==="]
  let body :=
    if r.success then
      (if !r.output.isEmpty then [lit "\nOutput:", r.output] else []) ++
      (match r.results with
       | some res =>
         if !res.isEmpty then
           [lit "\nReturned Variables:"] ++
           (res.map (fun kv => [lit "\n" ++ kv.1 ++ lit ":", pyValRender kv.2])).flatten
         else []
       | none => [])
    else
      [lit "\nExecution Failed:", r.output]
  List.intercalate (lit "\n") (header ++ body)

/-- The literal action marker looked up in the oracle response. -/
def actionMarker : Str := lit "ACTION: CODE_GENERATION"

/-- The opening fence looked up by the code extraction. -/
def fenceOpen : Str := lit "```python\n"

/-- The closing fence looked up by the code extraction. -/
def fenceClose : Str := lit "```"

/-- Code extraction of `_plan_and_execute` (agent.py lines 266-270):
`start = find("```python\n") + 10`, `end = find("```", start)`, and the
slice is taken and stripped only when `start > 9 and end > start`. -/
def extract_code (response_text : Str) : Option Str :=
  let start : Int := pyFind response_text fenceOpen 0 + 10
  let stop : Int := pyFind response_text fenceClose start.toNat
  if 9 < start && start < stop then
    some (pyStrip (pySlice response_text start.toNat stop.toNat))
  else none

/-- Explanation extraction of the `CODE_GENERATION` branch (agent.py lines
273-274). -/
def extract_explanation (response_text : Str) : Option Str :=
  if containsSub response_text (lit "EXPLANATION:") then
    some (pyStrip (afterFirst response_text (lit "EXPLANATION:")))
  else none

/-- Line-scanning parse of the `ACTION:` / `EXPLANATION:` fields (agent.py
lines 276-280).  Each matching line assigns the field again, so a later
matching line overwrites an earlier one. -/
def parse_action_explanation (response_text : Str) : Option Str × Option Str :=
  (splitLines response_text).foldl
    (fun acc line =>
      if pyStartsWith line (lit "ACTION:") then
        (some (pyUpper (pyStrip (afterColon line))), acc.2)
      else if pyStartsWith line (lit "EXPLANATION:") then
        (acc.1, some (pyStrip (afterColon line)))
      else acc)
    (none, none)

/-- Dtype of a column, Python `df[c].dtype` for a column known to exist. -/
def dtypeOf (df : DataFrame) (c : Str) : Str :=
  match df.dtypes.find? (fun kv => kv.1 = c) with
  | some kv => kv.2
  | none => lit "object"

/-- The `history_text` block built by `process_query` from the last five
conversation entries.  The rendering of the `fixes` list is abridged: prompts
are opaque inputs to the external oracle and no claim depends on their
text. -/
def history_text (m : Memory) : Str :=
  if m.conversation_history.isEmpty then [] else
    lit "\nPrevious interactions:\n" ++
    ((m.conversation_history.drop (m.conversation_history.length - 5)).map
      (fun it =>
        lit "\nUser: " ++ it.query ++ lit "\n" ++
        lit "Assistant: " ++ it.response ++ lit "\n" ++
        (if truthy it.error then lit "Error: " ++ optStr it.error ++ lit "\n" else []) ++
        (match it.fixes with
         | some fs => lit "Fixes: " ++ natStr fs.length ++ lit " attempt records\n"
         | none => []))).flatten

/-- The prompt built on the `fix` path of `process_query` (agent.py lines
106-138).  It interpolates the same state the Python f-string does; the
surrounding prose is abridged, since the prompt is an opaque input to the
external oracle. -/
def pq_fix_prompt (st : AgentSt) (fix_instructions : Str) : Str :=
  lit "Previous execution resulted in: Code: " ++ optStr st.last_code ++
  lit " Results: " ++ optStr st.last_result ++
  lit " User wants to: " ++ fix_instructions

/-- The main prompt built by `process_query` (agent.py lines 161-185), with
the same interpolations as the Python f-string and abridged prose. -/
def pq_main_prompt (st : AgentSt) (query : Str) : Str :=
  lit "You are a forecasting assistant. Current context: Data available: " ++
  (match st.data_info with | some s => s | none => lit "No data loaded") ++
  lit " CSV file: " ++ optStr st.csv_path ++
  lit " Target column: " ++ optStr st.target_column ++
  lit " Series ID column: " ++ optStr st.series_id_column ++
  lit " Previous analysis: " ++
  (match get_last_analysis st.memory with | some a => a.rendered | none => lit "None") ++
  history_text st.memory ++
  lit " User query: " ++ query

/-- The repair prompt built on the `fix` branch of `_plan_and_execute`
(agent.py lines 223-258), with the same interpolations and abridged prose. -/
def pae_fix_prompt (st : AgentSt) (df : DataFrame) (original_query : Str) : Str :=
  lit "The previous code execution produced empty or incorrect results. User instructions: " ++
  pyStrip (original_query.drop 3) ++
  lit " Previous Code: " ++ optStr st.last_code ++
  lit " Last Error/Output: " ++ optStr st.last_error ++
  lit " DataFrame df contains " ++ natStr df.nrows ++ lit " rows Columns: " ++
  List.intercalate (lit ", ") df.columns ++
  lit " Target column: " ++ optStr st.target_column ++
  lit " Series ID column: " ++ optStr st.series_id_column ++
  lit " Date column format: " ++ dtypeOf df (lit "date")

/-- The repair prompt built inside the code-generation loop (agent.py lines
331-373), embedding the failing code, the error output and the cumulative
attempt history; interpolations as in the source, prose abridged. -/
def loop_fix_prompt (st : AgentSt) (df : DataFrame) (code : Str) (result : ExecResult)
    (history : List AttemptRec) : Str :=
  lit "The code execution failed. Error Message: " ++ result.output ++
  lit " Failed Code: " ++ code ++
  lit " DataFrame df contains " ++ natStr df.nrows ++ lit " rows Columns: " ++
  List.intercalate (lit ", ") df.columns ++
  lit " Target column: " ++ optStr st.target_column ++
  lit " Series ID column: " ++ optStr st.series_id_column ++
  lit " Date column format: " ++ dtypeOf df (lit "date") ++
  lit " Previous Attempts Summary: " ++
  List.intercalate (lit "; ")
    (history.map (fun a => lit "attempt " ++ natStr a.attempt ++ lit ": " ++ a.error))

/-- The user-facing string produced by the except handler of
`_plan_and_execute`. -/
def errAction (e : PyExc) : Str := lit "Error executing action: " ++ e.msg

/-- The `AttributeError` raised when `self.llm` is `None` and `invoke` is
accessed. -/
def llmNoneExc : PyExc :=
  { name := lit "AttributeError",
    msg := lit "\x27NoneType\x27 object has no attribute \x27invoke\x27" }

/-- The `TypeError` raised by `len(self.current_data)` when no dataset is
loaded. -/
def lenNoneExc : PyExc :=
  { name := lit "TypeError", msg := lit "object of type \x27NoneType\x27 has no len()" }

/-- The `KeyError` raised by `self.current_data['date']` when the frame has no
`date` column. -/
def keyDateExc : PyExc :=
  { name := lit "KeyError", msg := lit "\x27date\x27" }

/-- `ForecastingAgent.process_dataset` (agent.py lines 53-80): read the csv,
record the dataset info and a fresh descriptive analysis in memory and return
the analysis.  Exceptions propagate to the caller together with the state as
mutated so far. -/
def process_dataset (env : Env) (st : AgentSt)
    (csv_path target series : Option Str) :
    Except (PyExc × AgentSt) (Analysis × AgentSt) :=
  match env.read_csv csv_path with
  | .error e => .error (e, st)
  | .ok df =>
    let m1 := store_dataset_info st.memory
      { target_column := target, series_id_column := series,
        shape := (df.nrows, df.ncols), columns := df.columns }
    match env.desc_analysis df target series with
    | .error e => .error (e, { st with memory := m1 })
    | .ok a => .ok (a, { st with memory := store_analysis m1 a })

/-- The result of one agent entry point.  `fuelOut` is a model artifact: the
recursion depth bound of the embedding was exhausted (the source loops are
operator-bounded and unbounded in the code). -/
inductive RetVal where
  | str (s : Str)
  | analysis (a : Analysis)
  | fuelOut
deriving DecidableEq, Repr

/-- Exit of the code-generation repair loop: a Python `return` value, an
exception escaping the loop body (caught by the outer handler of
`_plan_and_execute`), or fuel exhaustion (model artifact). -/
inductive LoopExit where
  | ret (v : RetVal) (st : AgentSt)
  | raised (e : PyExc) (st : AgentSt)
  | fuelOut (st : AgentSt)
deriving DecidableEq, Repr

/-- Ghost record of one call to `execute_code` made by the repair loop: the
attempt counter at the time, the executed code and the result.  These records
are specification instrumentation only; the loop ignores them. -/
structure EvRec where
  attempt : Nat
  code : Str
  result : ExecResult
deriving DecidableEq, Repr

mutual

/-- `ForecastingAgent.process_query` (agent.py lines 82-193).  The `fix` path
is handled before the try/except: on it, an oracle exception (or the
`AttributeError` from an uninitialized `self.llm`) propagates out of the
function, which the `.error` case records together with the state at raise
time.  On the normal path every exception is caught and converted into the
string `"Error processing query: ..."`.  `fuel` bounds the recursion depth of
the embedding. -/
def process_query (env : Env) : Nat → AgentSt → Str → Except (PyExc × AgentSt) (RetVal × AgentSt)
  | 0, st, _ => .ok (.fuelOut, st)
  | fuel+1, st, query =>
    if pyStartsWith (pyLower query) (lit "fix") then
      if !truthy st.last_code || !truthy st.last_result then
        .ok (.str (lit "No previous code execution to fix. Please run a command first."), st)
      else
        let fix_instructions := pyStrip (query.drop 3)
        if fix_instructions.isEmpty then
          .ok (.str (lit "Please provide instructions for the fix, e.g., \x27fix write results to csv\x27"), st)
        else if !st.llm_ready then
          .error (llmNoneExc, st)
        else
          match env.llm st.llmIdx (pq_fix_prompt st fix_instructions) with
          | .error e => .error (e, { st with llmIdx := st.llmIdx + 1 })
          | .ok response =>
            .ok (plan_and_execute env fuel { st with llmIdx := st.llmIdx + 1 } response query)
    else if !st.llm_ready then
      .ok (.str (lit "Error: LLM not initialized"), st)
    else
      match env.llm st.llmIdx (pq_main_prompt st query) with
      | .error e =>
        .ok (.str (lit "Error processing query: " ++ e.msg), { st with llmIdx := st.llmIdx + 1 })
      | .ok response =>
        let st1 := { st with
          llmIdx := st.llmIdx + 1,
          memory := store_interaction st.memory query response none none none none }
        .ok (plan_and_execute env fuel st1 response query)

/-- `ForecastingAgent._plan_and_execute` (agent.py lines 195-460).  The whole
body sits inside a try/except whose handler returns
`"Error executing action: ..."`, so the function is total; exceptions raised
by branches are mapped to that string with the state as mutated so far.  On a
`fix` query the function re-prompts the oracle and recurses with the same
query (the source recursion is unbounded; `fuel` bounds the embedding). -/
def plan_and_execute (env : Env) : Nat → AgentSt → Str → Str → RetVal × AgentSt
  | 0, st, _, _ => (.fuelOut, st)
  | fuel+1, st, llm_response, original_query =>
    if pyStartsWith (pyLower original_query) (lit "fix") then
      match st.current_data with
      | none => (.str (errAction lenNoneExc), st)
      | some df =>
        if !(df.columns.contains (lit "date")) then
          (.str (errAction keyDateExc), st)
        else if !st.llm_ready then
          (.str (errAction llmNoneExc), st)
        else
          match env.llm st.llmIdx (pae_fix_prompt st df original_query) with
          | .error e => (.str (errAction e), { st with llmIdx := st.llmIdx + 1 })
          | .ok fix_response =>
            plan_and_execute env fuel { st with llmIdx := st.llmIdx + 1 } fix_response original_query
    else
      let parsed :=
        if containsSub llm_response actionMarker then
          (some (lit "CODE_GENERATION"), extract_code llm_response,
           extract_explanation llm_response)
        else
          ((parse_action_explanation llm_response).1, none,
           (parse_action_explanation llm_response).2)
      let action := parsed.1
      let code := parsed.2.1
      let explanation := parsed.2.2
      if !truthy action then
        (.str (lit "Couldn\x27t determine appropriate action"), st)
      else if action = some (lit "CODE_GENERATION") then
        if !truthy code then (.str (lit "No code was generated"), st)
        else
          match code_gen_loop env fuel st (code.getD []) explanation original_query 0 [] [] with
          | (.ret v stF, _, _) => (v, stF)
          | (.raised e stF, _, _) => (.str (errAction e), stF)
          | (.fuelOut stF, _, _) => (.fuelOut, stF)
      else if action = some (lit "FORECAST") then
        match st.current_data with
        | none => (.str (lit "Please analyze a dataset first using the \x27analyze\x27 command."), st)
        | some df =>
          match env.forecast df st.target_column st.series_id_column with
          | .ok s => (.str s, st)
          | .error e => (.str (errAction e), st)
      else if action = some (lit "DATA_ANALYSIS") then
        match process_dataset env st st.csv_path st.target_column st.series_id_column with
        | .ok (a, st') => (.analysis a, st')
        | .error (e, st') => (.str (errAction e), st')
      else if action = some (lit "CODE_EXECUTION") then
        match st.current_data with
        | none => (.str (lit "Please analyze a dataset first using the \x27analyze\x27 command."), st)
        | some df =>
          let user_input := env.user_input st.inIdx
          let st1 := { st with inIdx := st.inIdx + 1 }
          if pyLower user_input = lit "yes" then
            match explanation with
            | none =>
              (.str (errAction { name := lit "TypeError",
                                 msg := lit "argument of type \x27NoneType\x27 is not iterable" }), st1)
            | some expl =>
              let rdf := execute_code env expl (some df)
              (.str (format_code_output rdf.1), { st1 with current_data := rdf.2 })
          else (.str (lit "Code execution cancelled."), st1)
      else if !st.llm_ready then
        (.str (errAction llmNoneExc), st)
      else
        match env.llm st.llmIdx original_query with
        | .ok s => (.str s, { st with llmIdx := st.llmIdx + 1 })
        | .error e => (.str (errAction e), { st with llmIdx := st.llmIdx + 1 })

/-- The code-generation repair loop of `_plan_and_execute` (agent.py lines
289-423): confirm, execute, and on failure append an attempt record, ask the
oracle for a fix, extract new code and iterate; with no new code the operator
chooses between retrying, restarting through `process_query`, or quitting.
The second and third components of the result are ghost instrumentation: the
final `attempt_history` and the list of executions performed. -/
def code_gen_loop (env : Env) :
    Nat → AgentSt → Str → Option Str → Str → Nat → List AttemptRec → List EvRec →
    LoopExit × List AttemptRec × List EvRec
  | 0, st, _, _, _, _, history, evs => (.fuelOut st, history, evs)
  | fuel+1, st, code, explanation, original_query, attempt, history, evs =>
    let attempt1 := attempt + 1
    let user_input := pyLower (env.user_input st.inIdx)
    let st1 := { st with inIdx := st.inIdx + 1 }
    if user_input = lit "quit" then
      (.ret (.str (lit "Code execution cancelled by user")) st1, history, evs)
    else if user_input ≠ lit "yes" then
      code_gen_loop env fuel st1 code explanation original_query attempt1 history evs
    else
      let rdf := execute_code env code st1.current_data
      let result := rdf.1
      let st2 := { st1 with
        current_data := rdf.2,
        last_code := some code,
        last_error := some (if !result.success then result.output
                            else dictStr (result.results.getD [])),
        last_result := some (format_code_output result) }
      let evs1 := evs ++ [⟨attempt1, code, result⟩]
      if result.success then
        (.ret (.str (format_code_output result)) st2, history, evs1)
      else
        let history1 := history ++
          [{ attempt := attempt1, code := code, error := result.output,
             debug_info := result.debug_info, error_context := result.error_context }]
        match st2.current_data with
        | none => (.raised lenNoneExc st2, history1, evs1)
        | some df =>
          if !(df.columns.contains (lit "date")) then
            (.raised keyDateExc st2, history1, evs1)
          else if !st2.llm_ready then
            (.raised llmNoneExc st2, history1, evs1)
          else
            match env.llm st2.llmIdx (loop_fix_prompt st2 df code result history1) with
            | .error e => (.raised e { st2 with llmIdx := st2.llmIdx + 1 }, history1, evs1)
            | .ok fix_response =>
              let st3 := { st2 with llmIdx := st2.llmIdx + 1 }
              let start : Int := pyFind fix_response fenceOpen 0
              let stop : Int := pyFind fix_response fenceClose (start + 10).toNat
              if 0 ≤ start && start + 10 < stop then
                let code2 := pyStrip (pySlice fix_response (start + 10).toNat stop.toNat)
                let tail := fix_response.drop stop.toNat
                let explanation2 :=
                  if containsSub tail (lit "EXPLANATION:") then
                    some (pyStrip (afterFirst tail (lit "EXPLANATION:")))
                  else explanation
                code_gen_loop env fuel st3 code2 explanation2 original_query attempt1 history1 evs1
              else
                let choice := env.user_input st3.inIdx
                let st4 := { st3 with inIdx := st3.inIdx + 1 }
                if choice = lit "2" then
                  match process_query env fuel st4 original_query with
                  | .ok (v, st5) => (.ret v st5, history1, evs1)
                  | .error (e, st5) => (.raised e st5, history1, evs1)
                else if choice = lit "3" then
                  (.ret (.str (lit "Code execution cancelled by user")) st4, history1, evs1)
                else
                  let st5 := { st4 with
                    memory := store_interaction st4.memory original_query fix_response
                      (some code) (some result.output) (some history1) none }
                  code_gen_loop env fuel st5 code explanation original_query attempt1 history1 evs1

end

/-- A fresh `MemoryManager` state. -/
def mem0 : Memory :=
  { short_term_memory := [], long_term_memory := [], conversation_history := [],
    last_execution := none }

/-- A fresh agent state: initialized oracle, no dataset, no previous
execution. -/
def st0 : AgentSt :=
  { memory := mem0, llm_ready := true, current_data := none, csv_path := none,
    target_column := none, series_id_column := none, data_info := none,
    last_code := none, last_error := none, last_result := none,
    llmIdx := 0, inIdx := 0 }

/-- An agent state with a recorded previous execution. -/
def stPrev : AgentSt :=
  { st0 with last_code := some (lit "x = 1"), last_error := some (lit "err"),
             last_result := some (lit "res") }

/-- A neutral concrete environment for witnesses: the oracle answers with a
fixed plain response, the operator always types `yes`, snippets are no-ops,
dependencies are satisfied, and `read_csv` raises the pandas `ValueError` on
a `None` path. -/
def envNull : Env :=
  { llm := fun _ _ => .ok (lit "ACTION: GENERAL\nEXPLANATION: chat"),
    user_input := fun _ => lit "yes",
    pySem := fun _ ns => .ok [] ns none,
    deps_ok := fun _ => true,
    read_csv := fun p =>
      match p with
      | none => .error { name := lit "ValueError",
                         msg := lit "Invalid file path or buffer object type: <class \x27NoneType\x27>" }
      | some _ => .error { name := lit "FileNotFoundError", msg := lit "no such file" },
    desc_analysis := fun _ _ _ => .ok { rendered := lit "analysis" },
    forecast := fun _ _ _ => .ok (lit "forecast") }

/-- C7: a query beginning with `fix` issued while no previous execution is
recorded (`self._last_code` or `self._last_result` is falsy) returns exactly
the no-previous-code-execution notice, raises nothing (the result is `.ok`),
and leaves the whole agent state — conversation history, short- and long-term
memory and the last-execution fields — unchanged. -/
theorem C7_fix_no_previous_execution (env : Env) (fuel : Nat) (st : AgentSt) (query : Str)
    (hfix : pyStartsWith (pyLower query) (lit "fix") = true)
    (hnone : truthy st.last_code = false ∨ truthy st.last_result = false) :
    process_query env (fuel+1) st query =
      .ok (.str (lit "No previous code execution to fix. Please run a command first."), st) := by
  have hcond : (!truthy st.last_code || !truthy st.last_result) = true := by
    rcases hnone with h | h <;> simp [h]
  simp only [process_query, hfix, hcond, if_true]

/-- Witness for C7 at the concrete query `fix` in a fresh session. -/
theorem C7_witness :
    process_query envNull 1 st0 (lit "fix") =
      .ok (.str (lit "No previous code execution to fix. Please run a command first."), st0) :=
  C7_fix_no_previous_execution envNull 0 st0 (lit "fix") (by decide) (Or.inl (by decide))

/-- C10: with a recorded previous execution, a `fix` query whose instruction
part is empty after trimming returns the ask-for-instructions message without
consuming an oracle call and without modifying any session state. -/
theorem C10_fix_empty_instructions (env : Env) (fuel : Nat) (st : AgentSt) (query : Str)
    (hfix : pyStartsWith (pyLower query) (lit "fix") = true)
    (hcode : truthy st.last_code = true)
    (hres : truthy st.last_result = true)
    (hempty : (pyStrip (query.drop 3)).isEmpty = true) :
    process_query env (fuel+1) st query =
      .ok (.str (lit "Please provide instructions for the fix, e.g., \x27fix write results to csv\x27"), st) := by
  simp [process_query, hfix, hcode, hres, hempty]

/-- Witness for C10 at the query that is exactly `fix`. -/
theorem C10_witness :
    process_query envNull 1 stPrev (lit "fix") =
      .ok (.str (lit "Please provide instructions for the fix, e.g., \x27fix write results to csv\x27"), stPrev) :=
  C10_fix_empty_instructions envNull 0 stPrev (lit "fix") (by decide) (by decide)
    (by decide) (by decide)


/-- Frame object bound under `df` in a namespace, when there is one. -/
def frameInNs (ns : PyNs) : Option DataFrame :=
  (ns.find? (fun kv => kv.1 = lit "df")).bind
    (fun kv => match kv.2 with | .frame d => some d | _ => none)

/-- The only exception site before `exec` is the datetime conversion, and at
that point `execution_step` still reads `initializing`. -/
theorem exec_prelude_error_dbg (df? : Option DataFrame) (e : PyExc) (dbg : DebugInfo)
    (dfE : Option DataFrame) (h : exec_prelude df? = .error (e, dbg, dfE)) :
    dbg.execution_step = lit "initializing" := by
  cases df? with
  | none => simp [exec_prelude] at h
  | some df =>
    by_cases hdate : lit "date" ∈ df.columns
    · cases hconv : to_datetime_date df with
      | error e2 =>
        simp [exec_prelude, hdate, hconv] at h
        obtain ⟨h1, h2, h3⟩ := h
        subst h2
        rfl
      | ok dfC => simp [exec_prelude, hdate, hconv] at h
    · simp [exec_prelude, hdate] at h

/-- C1: whenever evaluating the snippet raises an exception — either in the
datetime-conversion stage or during `exec` — `execute_code` returns (never
propagates: its return type is the plain result pair, the try/except of the
source being the pattern match inside it) a result with `success = false`,
whose `error_context.error_type` is the name of the exception kind and whose
recorded `debug_info.execution_step` (carried inside `error_context`; the
top-level `debug_info` key is absent in the failure shape) equals the last
stage recorded before the exception: `initializing` for a conversion failure,
`executing code` for an `exec` failure. -/
theorem C1_exception_failure_shape (env : Env) (code : Str) (df? : Option DataFrame)
    (hdeps : env.deps_ok (withPlotlyHeader code) = true) :
    (∀ e dbg dfE, exec_prelude df? = .error (e, dbg, dfE) →
      (execute_code env code df?).1.success = false ∧
      (execute_code env code df?).1.debug_info = none ∧
      (execute_code env code df?).1.error_context.map ErrorContext.error_type
        = some e.name ∧
      (execute_code env code df?).1.error_context.map
        (fun ec => ec.debug_info.execution_step) = some (lit "initializing")) ∧
    (∀ dbg ns dfO e dfA, exec_prelude df? = .ok (dbg, ns, dfO) →
      env.pySem (withPlotlyHeader code) ns = .raises e dfA →
      (execute_code env code df?).1.success = false ∧
      (execute_code env code df?).1.debug_info = none ∧
      (execute_code env code df?).1.error_context.map ErrorContext.error_type
        = some e.name ∧
      (execute_code env code df?).1.error_context.map
        (fun ec => ec.debug_info.execution_step) = some (lit "executing code")) := by
  constructor
  · intro e dbg dfE hpre
    have hstep := exec_prelude_error_dbg df? e dbg dfE hpre
    simp [execute_code, hdeps, hpre, execFailure, hstep]
  · intro dbg ns dfO e dfA hpre hraise
    simp [execute_code, hdeps, hpre, hraise, execFailure]

/-- A concrete frame: two columns, a parseable `date` column of dtype
`object`. -/
def dfW : DataFrame :=
  { nrows := 3, ncols := 2,
    columns := [lit "date", lit "value"],
    dtypes := [(lit "date", lit "object"), (lit "value", lit "int64")],
    null_counts := [(lit "date", 0), (lit "value", 1)],
    date_parseable := true }

/-- The frame `dfW` after the in-place datetime conversion. -/
def dfWC : DataFrame :=
  { dfW with dtypes := [(lit "date", lit "datetime64[ns]"), (lit "value", lit "int64")] }

/-- The `NameError` raised by the witness snippet. -/
def excW : PyExc := { name := lit "NameError", msg := lit "name \x27x\x27 is not defined" }

/-- An environment whose snippet semantics raises `excW` and leaves the bound
frame untouched. -/
def envRaise : Env :=
  { envNull with
    pySem := fun _ ns => PyOutcome.raises excW (frameInNs ns) }

/-- Debug info after the conversion stage for `dfW`. -/
def dbgW : DebugInfo :=
  { data_info := some (data_info_of dfW), imports_loaded := [],
    execution_step := lit "datetime conversion done" }

/-- The namespace seeded for `dfW` (with the converted frame bound). -/
def nsW : PyNs :=
  [(lit "pd", .pdModule), (lit "np", .npModule), (lit "df", .frame dfWC)]

/-- Witness for C1: a snippet raising `NameError` against `dfW` yields the
failure shape with `error_type = NameError` and last recorded stage
`executing code`. -/
theorem C1_witness :
    (execute_code envRaise (lit "print(x)") (some dfW)).1.success = false ∧
    (execute_code envRaise (lit "print(x)") (some dfW)).1.debug_info = none ∧
    (execute_code envRaise (lit "print(x)") (some dfW)).1.error_context.map
      ErrorContext.error_type = some (lit "NameError") ∧
    (execute_code envRaise (lit "print(x)") (some dfW)).1.error_context.map
      (fun ec => ec.debug_info.execution_step) = some (lit "executing code") :=
  (C1_exception_failure_shape envRaise (lit "print(x)") (some dfW) (by decide)).2
    dbgW nsW (some dfWC) excW (some dfWC) rfl rfl

/-- C9: on a successful execution the returned bindings are exactly the
namespace entries left by the snippet minus the injected `df`, the library
handles `pd` and `np`, and dunder-named entries; the captured stdout is the
stdout the snippet produced. -/
theorem C9_returned_bindings (env : Env) (code : Str) (df? : Option DataFrame)
    (dbg : DebugInfo) (ns : PyNs) (dfO : Option DataFrame)
    (stdout : Str) (ns2 : PyNs) (dfA : Option DataFrame)
    (hdeps : env.deps_ok (withPlotlyHeader code) = true)
    (hpre : exec_prelude df? = .ok (dbg, ns, dfO))
    (hexec : env.pySem (withPlotlyHeader code) ns = .ok stdout ns2 dfA) :
    (execute_code env code df?).1.success = true ∧
    (execute_code env code df?).1.output = stdout ∧
    ∃ res, (execute_code env code df?).1.results = some res ∧
      ∀ kv, kv ∈ res ↔ (kv ∈ ns2 ∧ reservedNames.contains kv.1 = false ∧
                        pyStartsWith kv.1 (lit "__") = false) := by
  refine ⟨?_, ?_, ?_⟩
  · simp [execute_code, hdeps, hpre, hexec]
  · simp [execute_code, hdeps, hpre, hexec]
  · refine ⟨ns2.filter (fun kv => !(reservedNames.contains kv.1) &&
      !(pyStartsWith kv.1 (lit "__"))), ?_, ?_⟩
    · simp [execute_code, hdeps, hpre, hexec]
    · intro kv
      simp [List.mem_filter]

/-- An environment whose snippet semantics is a read-only no-op: no stdout,
no new bindings, the bound frame untouched. -/
def envReadOnly : Env :=
  { envNull with pySem := fun _ ns => PyOutcome.ok [] ns (frameInNs ns) }

/-- Witness for C9, at the scenario the claim singles out: a dataset with a
non-empty parseable `date` column and a snippet that only reads `df` —
execution succeeds with empty returned bindings and empty stdout. -/
theorem C9_witness :
    ((execute_code envReadOnly (lit "df.head()") (some dfW)).1.success = true ∧
     (execute_code envReadOnly (lit "df.head()") (some dfW)).1.output = [] ∧
     ∃ res, (execute_code envReadOnly (lit "df.head()") (some dfW)).1.results = some res ∧
       ∀ kv, kv ∈ res ↔ (kv ∈ nsW ∧ reservedNames.contains kv.1 = false ∧
                         pyStartsWith kv.1 (lit "__") = false)) ∧
    (execute_code envReadOnly (lit "df.head()") (some dfW)).1.results = some [] :=
  ⟨C9_returned_bindings envReadOnly (lit "df.head()") (some dfW) dbgW nsW (some dfWC)
      [] nsW (some dfWC) rfl rfl rfl, by decide⟩

/-- The diagnostic bundle of a failure result: the dataset snapshot carried
inside `error_context.debug_info`. -/
def diag_bundle (r : ExecResult) : Option DataInfo :=
  r.error_context.bind (fun ec => ec.debug_info.data_info)

/-- The snippet does not mutate the bound frame: under every namespace that
binds a frame, the semantics reports that frame unchanged. -/
def preservesFrames (env : Env) (code : Str) : Prop :=
  ∀ ns df0, frameInNs ns = some df0 →
    (match env.pySem code ns with
     | .ok _ _ dfA => dfA = some df0
     | .raises _ dfA => dfA = some df0)

/-- Replacing the same key by the same value twice is the same as doing it
once. -/
theorem assocSet_idem (l : List (Str × Str)) (k v : Str) :
    assocSet (assocSet l k v) k v = assocSet l k v := by
  unfold assocSet
  rw [List.map_map]
  apply List.map_congr_left
  intro kv _
  by_cases hk : kv.1 = k <;> simp [hk]

/-- Conversion changes only the dtypes: `convertDate` is the identity on
shape, columns, null counts and parseability. -/
theorem convertDate_fields (df : DataFrame) :
    (convertDate df).nrows = df.nrows ∧ (convertDate df).ncols = df.ncols ∧
    (convertDate df).columns = df.columns ∧
    (convertDate df).null_counts = df.null_counts ∧
    (convertDate df).date_parseable = df.date_parseable :=
  ⟨rfl, rfl, rfl, rfl, rfl⟩

/-- With dependencies satisfied, every failure of `execute_code` on a bound
frame carries the `data_info` snapshot of that frame (taken before the
conversion) in its diagnostic bundle. -/
theorem execute_code_fail_bundle (env : Env) (code : Str) (df : DataFrame)
    (hdeps : env.deps_ok (withPlotlyHeader code) = true)
    (hfail : (execute_code env code (some df)).1.success = false) :
    diag_bundle (execute_code env code (some df)).1 = some (data_info_of df) := by
  by_cases hdate : lit "date" ∈ df.columns
  · by_cases hp : df.date_parseable
    · have hpre : exec_prelude (some df) =
          .ok ({ data_info := some (data_info_of df), imports_loaded := [],
                 execution_step := lit "datetime conversion done" },
               [(lit "pd", .pdModule), (lit "np", .npModule), (lit "df", .frame (convertDate df))],
               some (convertDate df)) := by
        simp [exec_prelude, hdate, to_datetime_date, hp]
      cases hout : env.pySem (withPlotlyHeader code)
          [(lit "pd", .pdModule), (lit "np", .npModule), (lit "df", .frame (convertDate df))] with
      | ok stdout ns2 dfA =>
        exfalso
        simp [execute_code, hdeps, hpre, hout] at hfail
      | raises e dfA =>
        simp [execute_code, hdeps, hpre, hout, execFailure, diag_bundle]
    · have hpre : exec_prelude (some df) =
          .error ({ name := lit "ValueError", msg := lit "Unknown datetime string format" },
                  { data_info := some (data_info_of df), imports_loaded := [],
                    execution_step := lit "initializing" }, some df) := by
        simp [exec_prelude, hdate, to_datetime_date, hp]
      simp [execute_code, hdeps, hpre, execFailure, diag_bundle]
  · have hpre : exec_prelude (some df) =
        .ok ({ data_info := some (data_info_of df), imports_loaded := [],
               execution_step := lit "initializing" },
             [(lit "pd", .pdModule), (lit "np", .npModule), (lit "df", .frame df)],
             some df) := by
      simp [exec_prelude, hdate]
    cases hout : env.pySem (withPlotlyHeader code)
        [(lit "pd", .pdModule), (lit "np", .npModule), (lit "df", .frame df)] with
    | ok stdout ns2 dfA =>
      exfalso
      simp [execute_code, hdeps, hpre, hout] at hfail
    | raises e dfA =>
      simp [execute_code, hdeps, hpre, hout, execFailure, diag_bundle]

/-- With dependencies satisfied and a non-mutating snippet, the caller-visible
frame after a call to `execute_code` is the original frame or its datetime
conversion. -/
theorem execute_code_frame_after (env : Env) (code : Str) (df : DataFrame)
    (hdeps : env.deps_ok (withPlotlyHeader code) = true)
    (hpres : preservesFrames env (withPlotlyHeader code)) :
    (execute_code env code (some df)).2 = some df ∨
    (execute_code env code (some df)).2 = some (convertDate df) := by
  by_cases hdate : lit "date" ∈ df.columns
  · by_cases hp : df.date_parseable
    · have hpre : exec_prelude (some df) =
          .ok ({ data_info := some (data_info_of df), imports_loaded := [],
                 execution_step := lit "datetime conversion done" },
               [(lit "pd", .pdModule), (lit "np", .npModule), (lit "df", .frame (convertDate df))],
               some (convertDate df)) := by
        simp [exec_prelude, hdate, to_datetime_date, hp]
      have hfr : frameInNs
          [(lit "pd", .pdModule), (lit "np", .npModule), (lit "df", .frame (convertDate df))] =
          some (convertDate df) := by rfl
      have hkey := hpres _ _ hfr
      cases hout : env.pySem (withPlotlyHeader code)
          [(lit "pd", .pdModule), (lit "np", .npModule), (lit "df", .frame (convertDate df))] with
      | ok stdout ns2 dfA =>
        right
        rw [hout] at hkey
        simp [execute_code, hdeps, hpre, hout, hkey]
      | raises e dfA =>
        right
        rw [hout] at hkey
        simp [execute_code, hdeps, hpre, hout, hkey]
    · have hpre : exec_prelude (some df) =
          .error ({ name := lit "ValueError", msg := lit "Unknown datetime string format" },
                  { data_info := some (data_info_of df), imports_loaded := [],
                    execution_step := lit "initializing" }, some df) := by
        simp [exec_prelude, hdate, to_datetime_date, hp]
      left
      simp [execute_code, hdeps, hpre]
  · have hpre : exec_prelude (some df) =
        .ok ({ data_info := some (data_info_of df), imports_loaded := [],
               execution_step := lit "initializing" },
             [(lit "pd", .pdModule), (lit "np", .npModule), (lit "df", .frame df)],
             some df) := by
      simp [exec_prelude, hdate]
    have hfr : frameInNs
        [(lit "pd", .pdModule), (lit "np", .npModule), (lit "df", .frame df)] = some df := by
      rfl
    have hkey := hpres _ _ hfr
    cases hout : env.pySem (withPlotlyHeader code)
        [(lit "pd", .pdModule), (lit "np", .npModule), (lit "df", .frame df)] with
    | ok stdout ns2 dfA =>
      left
      rw [hout] at hkey
      simp [execute_code, hdeps, hpre, hout, hkey]
    | raises e dfA =>
      left
      rw [hout] at hkey
      simp [execute_code, hdeps, hpre, hout, hkey]

/-- C3 (amended): running the same failing snippet twice against the same
frame (threading the frame as `execute_code` leaves it, since the call
converts the `date` column in place) yields diagnostic bundles that agree on
shape, columns and per-column null counts, provided the snippet itself does
not mutate the frame.  The dtype part of the bundle may differ between the
two calls, because the first call converts the `date` column after the
snapshot is taken — see the counterexample. -/
theorem C3_diag_bundle_stable (env : Env) (code : Str) (df : DataFrame)
    (hdeps : env.deps_ok (withPlotlyHeader code) = true)
    (hpres : preservesFrames env (withPlotlyHeader code))
    (hfail1 : (execute_code env code (some df)).1.success = false)
    (hfail2 : (execute_code env code (execute_code env code (some df)).2).1.success = false) :
    ∃ d1 d2,
      diag_bundle (execute_code env code (some df)).1 = some d1 ∧
      diag_bundle (execute_code env code (execute_code env code (some df)).2).1 = some d2 ∧
      d1.shape = d2.shape ∧ d1.columns = d2.columns ∧ d1.null_counts = d2.null_counts := by
  have hb1 := execute_code_fail_bundle env code df hdeps hfail1
  rcases execute_code_frame_after env code df hdeps hpres with hafter | hafter
  · rw [hafter] at hfail2 ⊢
    have hb2 := execute_code_fail_bundle env code df hdeps hfail2
    exact ⟨data_info_of df, data_info_of df, hb1, hb2, rfl, rfl, rfl⟩
  · rw [hafter] at hfail2 ⊢
    have hb2 := execute_code_fail_bundle env code (convertDate df) hdeps hfail2
    exact ⟨data_info_of df, data_info_of (convertDate df), hb1, hb2, rfl, rfl, rfl⟩

/-- Witness for C3: the `NameError`-raising snippet against `dfW`, twice. -/
theorem C3_witness :
    ∃ d1 d2,
      diag_bundle (execute_code envRaise (lit "print(x)") (some dfW)).1 = some d1 ∧
      diag_bundle (execute_code envRaise (lit "print(x)")
        (execute_code envRaise (lit "print(x)") (some dfW)).2).1 = some d2 ∧
      d1.shape = d2.shape ∧ d1.columns = d2.columns ∧ d1.null_counts = d2.null_counts :=
  C3_diag_bundle_stable envRaise (lit "print(x)") dfW (by decide)
    (by
      intro ns df0 hfr
      cases hout : envRaise.pySem (withPlotlyHeader (lit "print(x)")) ns with
      | ok stdout ns2 dfA =>
        exfalso
        simp [envRaise, envNull] at hout
      | raises e dfA =>
        simp only [envRaise] at hout
        cases hout
        exact hfr)
    (by decide) (by decide)

/-- Counterexample for C3 as stated: with the parseable `object`-dtype `date`
column of `dfW`, the two failure bundles of the identical snippet and frame
differ — the first records dtype `object` for `date`, the second records
`datetime64[ns]`, because the first call converted the column in place after
snapshotting.  Both runs fail and the snippet mutates nothing, yet the
bundles are not byte-identical once per-column dtypes are included. -/
theorem C3_counterexample :
    (execute_code envRaise (lit "print(x)") (some dfW)).1.success = false ∧
    (execute_code envRaise (lit "print(x)")
      (execute_code envRaise (lit "print(x)") (some dfW)).2).1.success = false ∧
    diag_bundle (execute_code envRaise (lit "print(x)") (some dfW)).1 ≠
      diag_bundle (execute_code envRaise (lit "print(x)")
        (execute_code envRaise (lit "print(x)") (some dfW)).2).1 ∧
    (diag_bundle (execute_code envRaise (lit "print(x)") (some dfW)).1).map DataInfo.dtypes
      = some [(lit "date", lit "object"), (lit "value", lit "int64")] ∧
    (diag_bundle (execute_code envRaise (lit "print(x)")
        (execute_code envRaise (lit "print(x)") (some dfW)).2).1).map DataInfo.dtypes
      = some [(lit "date", lit "datetime64[ns]"), (lit "value", lit "int64")] := by
  refine ⟨by decide, by decide, by decide, by decide, by decide⟩

/-- C6 (amended): a parsed `FORECAST` action with no dataset loaded returns
the explicit analyze-a-dataset-first message without raising; a parsed
`DATA_ANALYSIS` action has no such guard — it re-reads the dataset from the
stored csv path, and when that read raises (as it does with no recorded
path), the turn returns the generic `"Error executing action: ..."` string
instead.  No exception escapes in either case. -/
theorem C6_amended (env : Env) (fuel : Nat) (st : AgentSt) (resp query : Str)
    (hq : pyStartsWith (pyLower query) (lit "fix") = false)
    (hm : containsSub resp actionMarker = false)
    (hdata : st.current_data = none) :
    ((parse_action_explanation resp).1 = some (lit "FORECAST") →
      plan_and_execute env (fuel+1) st resp query =
        (.str (lit "Please analyze a dataset first using the \x27analyze\x27 command."), st)) ∧
    ((parse_action_explanation resp).1 = some (lit "DATA_ANALYSIS") →
      ∀ e, env.read_csv st.csv_path = .error e →
      plan_and_execute env (fuel+1) st resp query =
        (.str (lit "Error executing action: " ++ e.msg), st)) := by
  have hne1 : ¬ (some (lit "FORECAST") = some (lit "CODE_GENERATION")) := by decide
  have hne2 : ¬ (some (lit "DATA_ANALYSIS") = some (lit "CODE_GENERATION")) := by decide
  have hne3 : ¬ (some (lit "DATA_ANALYSIS") = some (lit "FORECAST")) := by decide
  have ht1 : truthy (some (lit "FORECAST")) = true := by decide
  have ht2 : truthy (some (lit "DATA_ANALYSIS")) = true := by decide
  constructor
  · intro hact
    simp [plan_and_execute, hq, hm, hact, hdata, hne1, ht1]
  · intro hact e hcsv
    simp [plan_and_execute, hq, hm, hact, hdata, hne2, hne3, ht2,
          process_dataset, hcsv, errAction]

/-- Counterexample for C6 as stated: with no dataset loaded, a
`DATA_ANALYSIS` action does not produce a load-a-dataset-first message; the
`None` csv path makes `read_csv` raise and the turn returns the generic
error string. -/
theorem C6_counterexample :
    plan_and_execute envNull 1 st0 (lit "ACTION: DATA_ANALYSIS") (lit "analyze the data") =
      (.str (lit "Error executing action: Invalid file path or buffer object type: <class \x27NoneType\x27>"), st0) ∧
    lit "Error executing action: Invalid file path or buffer object type: <class \x27NoneType\x27>" ≠
      lit "Please analyze a dataset first using the \x27analyze\x27 command." :=
  ⟨by decide, by decide⟩

/-- Witness for C6 at concrete oracle responses for both actions. -/
theorem C6_witness :
    plan_and_execute envNull 1 st0 (lit "ACTION: FORECAST") (lit "forecast it") =
      (.str (lit "Please analyze a dataset first using the \x27analyze\x27 command."), st0) ∧
    plan_and_execute envNull 1 st0 (lit "ACTION: DATA_ANALYSIS") (lit "analyze it") =
      (.str (lit "Error executing action: Invalid file path or buffer object type: <class \x27NoneType\x27>"), st0) :=
  ⟨(C6_amended envNull 0 st0 (lit "ACTION: FORECAST") (lit "forecast it")
      (by decide) (by decide) rfl).1 (by decide),
   (C6_amended envNull 0 st0 (lit "ACTION: DATA_ANALYSIS") (lit "analyze it")
      (by decide) (by decide) rfl).2 (by decide) _ rfl⟩

/-- The transport exception used by the raising-oracle environment. -/
def oracleDownExc : PyExc :=
  { name := lit "ConnectionError", msg := lit "oracle unavailable" }

/-- An environment whose oracle raises on every invocation. -/
def envOracleDown : Env :=
  { envNull with llm := fun _ _ => .error oracleDownExc }

/-- C8 (amended): for queries not starting with `fix`, every exception —
oracle invocations included — is caught inside the turn and `process_query`
returns normally (the non-fix oracle call sits inside the try/except, and
`_plan_and_execute` converts its own exceptions to strings); but on the `fix`
path the initial oracle invocation happens before the try/except, so an
oracle exception there propagates out of `process_query`. -/
theorem C8_amended (env : Env) (fuel : Nat) (st : AgentSt) (query : Str) :
    (pyStartsWith (pyLower query) (lit "fix") = false →
      (process_query env (fuel+1) st query).isOk = true) ∧
    (pyStartsWith (pyLower query) (lit "fix") = true →
      truthy st.last_code = true → truthy st.last_result = true →
      (pyStrip (query.drop 3)).isEmpty = false →
      st.llm_ready = true →
      ∀ e, env.llm st.llmIdx (pq_fix_prompt st (pyStrip (query.drop 3))) = .error e →
      process_query env (fuel+1) st query = .error (e, { st with llmIdx := st.llmIdx + 1 })) := by
  constructor
  · intro hq
    by_cases hl : st.llm_ready = true
    · cases hr : env.llm st.llmIdx (pq_main_prompt st query) with
      | error e => simp [process_query, hq, hl, hr, Except.isOk, Except.toBool]
      | ok resp => simp [process_query, hq, hl, hr, Except.isOk, Except.toBool]
    · simp [process_query, hq, hl, Except.isOk, Except.toBool]
  · intro hq hc hr hne hl e he
    simp [process_query, hq, hc, hr, hne, hl, he]

/-- Counterexample for C8 as stated: a `fix` query with a recorded previous
execution and a raising oracle makes `process_query` itself raise (the
result is not `.ok`), instead of returning a user-facing error string. -/
theorem C8_counterexample :
    (process_query envOracleDown 1 stPrev (lit "fix write results to csv")).isOk = false := by
  decide

/-- Witness for C8: the same raising oracle is converted to a normal return
on a non-fix query, and propagates on the fix query. -/
theorem C8_witness :
    (process_query envOracleDown 1 stPrev (lit "hello")).isOk = true ∧
    process_query envOracleDown 1 stPrev (lit "fix write results to csv") =
      .error (oracleDownExc, { stPrev with llmIdx := 1 }) :=
  ⟨(C8_amended envOracleDown 0 stPrev (lit "hello")).1 (by decide),
   (C8_amended envOracleDown 0 stPrev (lit "fix write results to csv")).2
     (by decide) (by decide) (by decide) (by decide) (by decide) oracleDownExc rfl⟩

/-- A line starting with `ACTION:` does not start with `EXPLANATION:`. -/
theorem action_not_explanation (l : Str) (h : pyStartsWith l (lit "ACTION:") = true) :
    pyStartsWith l (lit "EXPLANATION:") = false := by
  cases l with
  | nil => exact absurd h (by decide)
  | cons c t =>
    have hc : c = 'A' := by
      simp [pyStartsWith, lit, List.isPrefixOf] at h
      exact h.1.symm
    subst hc
    simp [pyStartsWith, lit, List.isPrefixOf]

/-- A line starting with `EXPLANATION:` does not start with `ACTION:`. -/
theorem explanation_not_action (l : Str) (h : pyStartsWith l (lit "EXPLANATION:") = true) :
    pyStartsWith l (lit "ACTION:") = false := by
  cases l with
  | nil => exact absurd h (by decide)
  | cons c t =>
    have hc : c = 'E' := by
      simp [pyStartsWith, lit, List.isPrefixOf] at h
      exact h.1.symm
    subst hc
    simp [pyStartsWith, lit, List.isPrefixOf]

/-- The line fold of `parse_action_explanation` keeps, for each field, the
value from the last matching line (later assignments overwrite earlier
ones). -/
theorem parse_foldl_last (ls : List Str) (a b : Option Str) :
    ls.foldl
      (fun acc line =>
        if pyStartsWith line (lit "ACTION:") then
          (some (pyUpper (pyStrip (afterColon line))), acc.2)
        else if pyStartsWith line (lit "EXPLANATION:") then
          (acc.1, some (pyStrip (afterColon line)))
        else acc)
      (a, b) =
    ((match (ls.filter (fun l => pyStartsWith l (lit "ACTION:"))).getLast? with
      | some l => some (pyUpper (pyStrip (afterColon l)))
      | none => a),
     (match (ls.filter (fun l => pyStartsWith l (lit "EXPLANATION:"))).getLast? with
      | some l => some (pyStrip (afterColon l))
      | none => b)) := by
  induction ls generalizing a b with
  | nil => rfl
  | cons l t ih =>
    rw [List.foldl_cons, List.filter_cons, List.filter_cons]
    by_cases hA : pyStartsWith l (lit "ACTION:") = true
    · have hE := action_not_explanation l hA
      rw [if_pos hA, if_pos hA, if_neg (by simp [hE])]
      rw [ih]
      rw [List.getLast?_cons]
      cases hlast : (t.filter (fun l => pyStartsWith l (lit "ACTION:"))).getLast? <;>
        simp [hlast]
    · by_cases hE : pyStartsWith l (lit "EXPLANATION:") = true
      · rw [if_neg (by simp [hA]), if_pos hE, if_neg (by simp [hA]), if_pos hE]
        rw [ih]
        rw [List.getLast?_cons]
        cases hlast : (t.filter (fun l => pyStartsWith l (lit "EXPLANATION:"))).getLast? <;>
          simp [hlast]
      · rw [if_neg (by simp [hA]), if_neg (by simp [hE]), if_neg (by simp [hA]),
            if_neg (by simp [hE])]
        exact ih a b

/-- C5 (amended): for each field the parser honors the LAST matching line,
not the first — every `ACTION:` (resp. `EXPLANATION:`) line overwrites the
previously held value, so the parsed value is the trimmed remainder
(upper-cased for the action) of the last line with that prefix. -/
theorem C5_last_line_wins (response_text : Str) :
    parse_action_explanation response_text =
      ((match ((splitLines response_text).filter
            (fun l => pyStartsWith l (lit "ACTION:"))).getLast? with
        | some l => some (pyUpper (pyStrip (afterColon l)))
        | none => none),
       (match ((splitLines response_text).filter
            (fun l => pyStartsWith l (lit "EXPLANATION:"))).getLast? with
        | some l => some (pyStrip (afterColon l))
        | none => none)) :=
  parse_foldl_last (splitLines response_text) none none

/-- Counterexample for C5 as stated: a response without the code-generation
marker and with two `EXPLANATION:` lines parses to the second value, not the
first. -/
theorem C5_counterexample :
    containsSub (lit "ACTION: GENERAL\nEXPLANATION: first\nEXPLANATION: second")
      actionMarker = false ∧
    (parse_action_explanation
      (lit "ACTION: GENERAL\nEXPLANATION: first\nEXPLANATION: second")).2 =
      some (lit "second") ∧
    some (lit "second") ≠ some (lit "first") :=
  ⟨by decide, by decide, by decide⟩

/-- Witness for C5 on a concrete multi-line response. -/
theorem C5_witness :
    parse_action_explanation (lit "ACTION: general\nnote\nACTION: forecast\nEXPLANATION: a\nEXPLANATION: b") =
      (some (lit "FORECAST"), some (lit "b")) := by
  rw [C5_last_line_wins]
  decide

/-- A list is a Boolean prefix of itself followed by anything. -/
theorem isPrefixOf_append_self (l t : List Char) : l.isPrefixOf (l ++ t) = true := by
  induction l with
  | nil => simp [List.isPrefixOf]
  | cons c cs ih => simp [List.isPrefixOf, ih]

/-- A nonempty pattern can only occur at positions strictly inside the
string. -/
theorem substrAt_lt_length (s sub : Str) (i : Nat) (hsub : sub ≠ [])
    (h : substrAt s sub i = true) : i < s.length := by
  by_contra hle
  push_neg at hle
  have hnil : s.drop i = [] := List.drop_eq_nil_of_le hle
  unfold substrAt at h
  rw [hnil] at h
  cases sub with
  | nil => exact hsub rfl
  | cons c t => simp [List.isPrefixOf] at h

/-- The scan returns the first occurrence: completeness direction. -/
theorem findFromAux_eq_some (s sub : Str) :
    ∀ fuel i j, i ≤ j → j < i + fuel → substrAt s sub j = true →
      (∀ k, i ≤ k → k < j → substrAt s sub k = false) →
      findFromAux s sub i fuel = some j := by
  intro fuel
  induction fuel with
  | zero =>
    intro i j h1 h2 _ _
    exact absurd h2 (by omega)
  | succ n ih =>
    intro i j h1 h2 hj hnone
    unfold findFromAux
    rcases Nat.eq_or_lt_of_le h1 with heq | hlt
    · subst heq
      simp [hj]
    · have hi : substrAt s sub i = false := hnone i le_rfl hlt
      simp only [hi, Bool.false_eq_true, if_false]
      exact ih (i+1) j hlt (by omega) hj (fun k hk1 hk2 => hnone k (by omega) hk2)

/-- The scan misses when there is no occurrence in range. -/
theorem findFromAux_eq_none (s sub : Str) :
    ∀ fuel i, (∀ k, i ≤ k → k < i + fuel → substrAt s sub k = false) →
      findFromAux s sub i fuel = none := by
  intro fuel
  induction fuel with
  | zero => intro i _; rfl
  | succ n ih =>
    intro i hnone
    unfold findFromAux
    have hi : substrAt s sub i = false := hnone i le_rfl (by omega)
    simp only [hi, Bool.false_eq_true, if_false]
    exact ih (i+1) (fun k hk1 hk2 => hnone k (by omega) (by omega))

/-- Characterization of `findFrom` at a known first occurrence. -/
theorem findFrom_eq_some (s sub : Str) (start j : Nat) (hsub : sub ≠ [])
    (h1 : start ≤ j) (hj : substrAt s sub j = true)
    (hnone : ∀ k, start ≤ k → k < j → substrAt s sub k = false) :
    findFrom s sub start = some j := by
  have hjl := substrAt_lt_length s sub j hsub hj
  exact findFromAux_eq_some s sub _ start j h1 (by omega) hj hnone

/-- Characterization of `findFrom` when the pattern never occurs at or after
`start`. -/
theorem findFrom_eq_none (s sub : Str) (start : Nat)
    (hnone : ∀ k, start ≤ k → substrAt s sub k = false) :
    findFrom s sub start = none :=
  findFromAux_eq_none s sub _ start (fun k hk1 _ => hnone k hk1)

/-- Against a response of the shape
`prose ++ "```python\n" ++ body ++ "```" ++ rest`, where the opening fence
occurs nowhere earlier and no closing fence occurs inside the (nonempty)
body, `extract_code` returns exactly the body, stripped. -/
theorem extract_code_of_block (p body rest : Str)
    (hfirst : ∀ j, j < p.length →
      substrAt (p ++ fenceOpen ++ body ++ fenceClose ++ rest) fenceOpen j = false)
    (hbody : ∀ j, p.length + 10 ≤ j → j < p.length + 10 + body.length →
      substrAt (p ++ fenceOpen ++ body ++ fenceClose ++ rest) fenceClose j = false)
    (hne : body ≠ []) :
    extract_code (p ++ fenceOpen ++ body ++ fenceClose ++ rest) = some (pyStrip body) := by
  have hfo : fenceOpen.length = 10 := by decide
  have hb : 0 < body.length := List.length_pos.mpr hne
  have hsub1 : substrAt (p ++ fenceOpen ++ body ++ fenceClose ++ rest) fenceOpen p.length
      = true := by
    unfold substrAt
    rw [show p ++ fenceOpen ++ body ++ fenceClose ++ rest
        = p ++ (fenceOpen ++ (body ++ (fenceClose ++ rest))) by simp,
      List.drop_left]
    exact isPrefixOf_append_self _ _
  have hfind1 : findFrom (p ++ fenceOpen ++ body ++ fenceClose ++ rest) fenceOpen 0
      = some p.length :=
    findFrom_eq_some _ _ 0 p.length (by decide) (Nat.zero_le _) hsub1
      (fun k _ hk2 => hfirst k hk2)
  have hlen2 : (p ++ fenceOpen ++ body).length = p.length + 10 + body.length := by
    simp [hfo]
    omega
  have hsub2 : substrAt (p ++ fenceOpen ++ body ++ fenceClose ++ rest) fenceClose
      (p.length + 10 + body.length) = true := by
    unfold substrAt
    rw [show p ++ fenceOpen ++ body ++ fenceClose ++ rest
        = (p ++ fenceOpen ++ body) ++ (fenceClose ++ rest) by simp,
      ← hlen2, List.drop_left]
    exact isPrefixOf_append_self _ _
  have hfind2 : findFrom (p ++ fenceOpen ++ body ++ fenceClose ++ rest) fenceClose
      (p.length + 10) = some (p.length + 10 + body.length) :=
    findFrom_eq_some _ _ _ _ (by decide) (by omega) hsub2
      (fun k hk1 hk2 => hbody k hk1 hk2)
  have hslice : pySlice (p ++ fenceOpen ++ body ++ fenceClose ++ rest)
      (p.length + 10) (p.length + 10 + body.length) = body := by
    unfold pySlice
    rw [show p ++ fenceOpen ++ body ++ fenceClose ++ rest
        = (p ++ fenceOpen) ++ (body ++ (fenceClose ++ rest)) by simp,
      show p.length + 10 = (p ++ fenceOpen).length by simp [hfo],
      List.drop_left,
      show (p ++ fenceOpen).length + body.length - (p ++ fenceOpen).length = body.length
        by omega]
    exact List.take_left _ _
  simp only [extract_code, pyFind, hfind1]
  rw [show (((p.length : Int)) + 10).toNat = p.length + 10 by omega]
  rw [hfind2]
  have hcond : (decide ((9:Int) < (p.length : Int) + 10) &&
      decide (((p.length : Int) + 10 : Int) < ((p.length + 10 + body.length : Nat) : Int)))
      = true := by
    simp only [Bool.and_eq_true, decide_eq_true_eq]
    constructor <;> [omega; (push_cast; omega)]
  rw [if_pos hcond]
  simp only [Int.toNat_natCast, hslice]

/-- A nonempty pattern does not occur at or past the end of the string. -/
theorem substrAt_of_ge_length (s sub : Str) (j : Nat) (hsub : sub ≠ [])
    (h : s.length ≤ j) : substrAt s sub j = false := by
  unfold substrAt
  rw [List.drop_eq_nil_of_le h]
  cases sub with
  | nil => exact absurd rfl hsub
  | cons c t => simp [List.isPrefixOf]

/-- With an opening fence present but no closing fence after it,
`extract_code` yields `none`. -/
theorem extract_code_no_close (p tail : Str)
    (hfirst : ∀ j, j < p.length → substrAt (p ++ fenceOpen ++ tail) fenceOpen j = false)
    (hnoclose : ∀ j, p.length + 10 ≤ j →
      substrAt (p ++ fenceOpen ++ tail) fenceClose j = false) :
    extract_code (p ++ fenceOpen ++ tail) = none := by
  have hsub1 : substrAt (p ++ fenceOpen ++ tail) fenceOpen p.length = true := by
    unfold substrAt
    rw [show p ++ fenceOpen ++ tail = p ++ (fenceOpen ++ tail) by simp, List.drop_left]
    exact isPrefixOf_append_self _ _
  have hfind1 : findFrom (p ++ fenceOpen ++ tail) fenceOpen 0 = some p.length :=
    findFrom_eq_some _ _ 0 p.length (by decide) (Nat.zero_le _) hsub1
      (fun k _ hk2 => hfirst k hk2)
  have hfind2 : findFrom (p ++ fenceOpen ++ tail) fenceClose (p.length + 10) = none :=
    findFrom_eq_none _ _ _ (fun k hk1 => hnoclose k hk1)
  simp only [extract_code, pyFind, hfind1]
  rw [show (((p.length : Int)) + 10).toNat = p.length + 10 by omega]
  rw [hfind2]
  have hcond : (decide ((9:Int) < (p.length : Int) + 10) &&
      decide (((p.length : Int) + 10 : Int) < -1)) = false := by
    have hlt : ¬ (((p.length : Int) + 10 : Int) < -1) := by omega
    simp [hlt]
  rw [hcond]
  simp

/-- With a closing fence immediately after the opening fence (empty block),
`extract_code` yields `none` — not the empty string. -/
theorem extract_code_empty_block (p rest : Str)
    (hfirst : ∀ j, j < p.length →
      substrAt (p ++ fenceOpen ++ fenceClose ++ rest) fenceOpen j = false) :
    extract_code (p ++ fenceOpen ++ fenceClose ++ rest) = none := by
  have hfo : fenceOpen.length = 10 := by decide
  have hsub1 : substrAt (p ++ fenceOpen ++ fenceClose ++ rest) fenceOpen p.length = true := by
    unfold substrAt
    rw [show p ++ fenceOpen ++ fenceClose ++ rest
        = p ++ (fenceOpen ++ (fenceClose ++ rest)) by simp, List.drop_left]
    exact isPrefixOf_append_self _ _
  have hfind1 : findFrom (p ++ fenceOpen ++ fenceClose ++ rest) fenceOpen 0
      = some p.length :=
    findFrom_eq_some _ _ 0 p.length (by decide) (Nat.zero_le _) hsub1
      (fun k _ hk2 => hfirst k hk2)
  have hsub2 : substrAt (p ++ fenceOpen ++ fenceClose ++ rest) fenceClose (p.length + 10)
      = true := by
    unfold substrAt
    rw [show p ++ fenceOpen ++ fenceClose ++ rest
        = (p ++ fenceOpen) ++ (fenceClose ++ rest) by simp,
      show p.length + 10 = (p ++ fenceOpen).length by simp [hfo],
      List.drop_left]
    exact isPrefixOf_append_self _ _
  have hfind2 : findFrom (p ++ fenceOpen ++ fenceClose ++ rest) fenceClose (p.length + 10)
      = some (p.length + 10) :=
    findFrom_eq_some _ _ _ _ (by decide) le_rfl hsub2
      (fun k hk1 hk2 => absurd hk1 (by omega))
  simp only [extract_code, pyFind, hfind1]
  rw [show (((p.length : Int)) + 10).toNat = p.length + 10 by omega]
  rw [hfind2]
  have hcond : (decide ((9:Int) < (p.length : Int) + 10) &&
      decide (((p.length : Int) + 10 : Int) < ((p.length + 10 : Nat) : Int))) = false := by
    have hlt : ¬ (((p.length : Int) + 10 : Int) < ((p.length + 10 : Nat) : Int)) := by
      push_cast
      omega
    simp [hlt]
  rw [hcond]
  simp

/-- When the marker is present but no code was extracted, the orchestrator
reports `No code was generated` and leaves the state untouched. -/
theorem pae_no_code (env : Env) (fuel : Nat) (st : AgentSt) (resp q : Str)
    (hq : pyStartsWith (pyLower q) (lit "fix") = false)
    (hmark : containsSub resp actionMarker = true)
    (hnone : extract_code resp = none) :
    plan_and_execute env (fuel+1) st resp q = (.str (lit "No code was generated"), st) := by
  have ht : truthy (some (lit "CODE_GENERATION")) = true := by decide
  have ht2 : truthy none = false := rfl
  simp [plan_and_execute, hq, hmark, hnone, ht, ht2]

/-- C2 (amended): for oracle responses carrying the `ACTION: CODE_GENERATION`
marker — first: when a python-fenced block with a NONEMPTY region between the
fences is present (first opening fence, next closing fence), the extracted
code is exactly that region, trimmed; second: when the opening fence has no
closing fence after it, extraction yields `none` and the orchestrator
returns `No code was generated` without raising; third: when the closing
fence immediately follows the opening fence (empty region), extraction also
yields `none` — not the empty string — and the orchestrator returns the same
message. -/
theorem C2_marker_code_extraction (env : Env) (fuel : Nat) (st : AgentSt) (q : Str)
    (hq : pyStartsWith (pyLower q) (lit "fix") = false) :
    (∀ p body rest,
      containsSub (p ++ fenceOpen ++ body ++ fenceClose ++ rest) actionMarker = true →
      (∀ j, j < p.length →
        substrAt (p ++ fenceOpen ++ body ++ fenceClose ++ rest) fenceOpen j = false) →
      (∀ j, p.length + 10 ≤ j → j < p.length + 10 + body.length →
        substrAt (p ++ fenceOpen ++ body ++ fenceClose ++ rest) fenceClose j = false) →
      body ≠ [] →
      extract_code (p ++ fenceOpen ++ body ++ fenceClose ++ rest) = some (pyStrip body)) ∧
    (∀ p tail,
      containsSub (p ++ fenceOpen ++ tail) actionMarker = true →
      (∀ j, j < p.length → substrAt (p ++ fenceOpen ++ tail) fenceOpen j = false) →
      (∀ j, p.length + 10 ≤ j →
        substrAt (p ++ fenceOpen ++ tail) fenceClose j = false) →
      extract_code (p ++ fenceOpen ++ tail) = none ∧
      plan_and_execute env (fuel+1) st (p ++ fenceOpen ++ tail) q =
        (.str (lit "No code was generated"), st)) ∧
    (∀ p rest,
      containsSub (p ++ fenceOpen ++ fenceClose ++ rest) actionMarker = true →
      (∀ j, j < p.length →
        substrAt (p ++ fenceOpen ++ fenceClose ++ rest) fenceOpen j = false) →
      extract_code (p ++ fenceOpen ++ fenceClose ++ rest) = none ∧
      plan_and_execute env (fuel+1) st (p ++ fenceOpen ++ fenceClose ++ rest) q =
        (.str (lit "No code was generated"), st)) := by
  refine ⟨?_, ?_, ?_⟩
  · intro p body rest _ h1 h2 h3
    exact extract_code_of_block p body rest h1 h2 h3
  · intro p tail hm h1 h2
    have hx := extract_code_no_close p tail h1 h2
    exact ⟨hx, pae_no_code env fuel st _ q hq hm hx⟩
  · intro p rest hm h1
    have hx := extract_code_empty_block p rest h1
    exact ⟨hx, pae_no_code env fuel st _ q hq hm hx⟩

/-- Counterexample for C2 as stated: the response
`ACTION: CODE_GENERATION` + newline + an empty fenced block contains a
well-formed python-fenced block whose inter-fence region is the empty
string, yet the extracted code is `none` rather than the trimmed region. -/
theorem C2_counterexample :
    extract_code (lit "ACTION: CODE_GENERATION\n```python\n```") = none ∧
    (none : Option Str) ≠ some (pyStrip ([] : Str)) :=
  ⟨by decide, by decide⟩

/-- Witness for C2 on concrete responses for all three cases. -/
theorem C2_witness :
    extract_code (lit "ACTION: CODE_GENERATION\n" ++ fenceOpen ++ lit "x = 1" ++
        fenceClose ++ lit "\nok") = some (pyStrip (lit "x = 1")) ∧
    (extract_code (lit "ACTION: CODE_GENERATION\n" ++ fenceOpen ++ lit "x = 1") = none ∧
     plan_and_execute envNull 1 st0
        (lit "ACTION: CODE_GENERATION\n" ++ fenceOpen ++ lit "x = 1")
        (lit "sum the values") = (.str (lit "No code was generated"), st0)) ∧
    (extract_code (lit "ACTION: CODE_GENERATION\n" ++ fenceOpen ++ fenceClose ++ lit "\nok")
        = none ∧
     plan_and_execute envNull 1 st0
        (lit "ACTION: CODE_GENERATION\n" ++ fenceOpen ++ fenceClose ++ lit "\nok")
        (lit "sum the values") = (.str (lit "No code was generated"), st0)) := by
  have hthm := C2_marker_code_extraction envNull 0 st0 (lit "sum the values") (by decide)
  refine ⟨hthm.1 (lit "ACTION: CODE_GENERATION\n") (lit "x = 1") (lit "\nok")
      (by decide) (by decide) ?hb (by decide),
    hthm.2.1 (lit "ACTION: CODE_GENERATION\n") (lit "x = 1") (by decide) (by decide) ?hnc,
    hthm.2.2 (lit "ACTION: CODE_GENERATION\n") (lit "\nok") (by decide) (by decide)⟩
  case hb =>
    have hfact : ∀ j, j < (lit "ACTION: CODE_GENERATION\n").length + 10 +
        (lit "x = 1").length →
        ((lit "ACTION: CODE_GENERATION\n").length + 10 ≤ j →
          substrAt (lit "ACTION: CODE_GENERATION\n" ++ fenceOpen ++ lit "x = 1" ++
            fenceClose ++ lit "\nok") fenceClose j = false) := by decide
    exact fun j h1 h2 => hfact j h2 h1
  case hnc =>
    intro j hj
    by_cases hl : j < (lit "ACTION: CODE_GENERATION\n" ++ fenceOpen ++ lit "x = 1").length
    · have hfact : ∀ j, j < (lit "ACTION: CODE_GENERATION\n" ++ fenceOpen ++
          lit "x = 1").length →
          ((lit "ACTION: CODE_GENERATION\n").length + 10 ≤ j →
            substrAt (lit "ACTION: CODE_GENERATION\n" ++ fenceOpen ++ lit "x = 1")
              fenceClose j = false) := by decide
      exact hfact j hl hj
    · exact substrAt_of_ge_length _ _ j (by decide) (by omega)

/-- The attempt record built from a ghost execution event (the dict appended
at agent.py lines 317-323). -/
def mkAttemptRec (e : EvRec) : AttemptRec :=
  { attempt := e.attempt, code := e.code, error := e.result.output,
    debug_info := e.result.debug_info, error_context := e.result.error_context }

/-- Invariant package for loop exits that leave the accumulators as they
are: if every execution so far failed and the history mirrors them, the
three loop-exit conclusions hold for any exit value. -/
theorem inv_ret_unchanged (x : LoopExit) (history : List AttemptRec) (evs : List EvRec)
    (hall : ∀ e ∈ evs, e.result.success = false)
    (hhist : history = evs.map mkAttemptRec) :
    (history = (evs.filter (fun e => !e.result.success)).map mkAttemptRec) ∧
    (∀ e ∈ evs.dropLast, e.result.success = false) ∧
    (∀ e, evs.getLast? = some e → e.result.success = true →
      ∃ stF, x = LoopExit.ret (RetVal.str (format_code_output e.result)) stF) := by
  refine ⟨?_, ?_, ?_⟩
  · rw [List.filter_eq_self.mpr (fun a ha => by rw [hall a ha]; rfl)]
    exact hhist
  · exact fun e he => hall e (List.dropLast_subset _ he)
  · intro e hlast hsucc
    exact absurd (hall e (List.mem_of_mem_getLast? (by simp [hlast]))) (by simp [hsucc])

/-- Invariant package for the success exit: the successful execution is
recorded as the last event, produces no attempt record, and the loop returns
its formatted result at once. -/
theorem inv_ret_success (ev : EvRec) (st2 : AgentSt) (history : List AttemptRec)
    (evs : List EvRec)
    (hall : ∀ e ∈ evs, e.result.success = false)
    (hhist : history = evs.map mkAttemptRec)
    (hsucc : ev.result.success = true) :
    (history = ((evs ++ [ev]).filter (fun e => !e.result.success)).map mkAttemptRec) ∧
    (∀ e ∈ (evs ++ [ev]).dropLast, e.result.success = false) ∧
    (∀ e, (evs ++ [ev]).getLast? = some e → e.result.success = true →
      ∃ stF, LoopExit.ret (RetVal.str (format_code_output ev.result)) st2 =
        LoopExit.ret (RetVal.str (format_code_output e.result)) stF) := by
  refine ⟨?_, ?_, ?_⟩
  · rw [List.filter_append]
    have h1 : List.filter (fun e => !e.result.success) [ev] = [] := by simp [hsucc]
    rw [h1, List.append_nil,
      List.filter_eq_self.mpr (fun a ha => by rw [hall a ha]; rfl)]
    exact hhist
  · rw [List.dropLast_concat]
    exact hall
  · intro e hlast hs
    rw [List.getLast?_concat] at hlast
    obtain rfl : ev = e := by injection hlast
    exact ⟨st2, rfl⟩


set_option maxHeartbeats 4000000 in
/-- Loop invariant of the repair loop, by induction on fuel: starting from
accumulators in which every recorded execution failed and the attempt history
mirrors them, at every exit the history is exactly the records of the failed
executions (in order), every non-final execution failed, and a final
successful execution makes the loop return its formatted result at once. -/
theorem code_gen_loop_inv (env : Env) :
    ∀ fuel st code expl q a history evs ex hist2 evs2,
      code_gen_loop env fuel st code expl q a history evs = (ex, hist2, evs2) →
      (∀ e ∈ evs, e.result.success = false) →
      history = evs.map mkAttemptRec →
      (hist2 = (evs2.filter (fun e => !e.result.success)).map mkAttemptRec) ∧
      (∀ e ∈ evs2.dropLast, e.result.success = false) ∧
      (∀ e, evs2.getLast? = some e → e.result.success = true →
        ∃ stF, ex = LoopExit.ret (RetVal.str (format_code_output e.result)) stF) := by
  intro fuel
  induction fuel with
  | zero =>
    intro st code expl q a history evs ex hist2 evs2 heq hall hhist
    injection heq with h1 h23
    injection h23 with h2 h3
    subst h1
    subst h2
    subst h3
    exact inv_ret_unchanged _ _ _ hall hhist
  | succ n ih =>
    intro st code expl q a history evs ex hist2 evs2 heq hall hhist
    unfold code_gen_loop at heq
    lift_lets at heq
    extract_lets at heq
    split at heq
    · injection heq with h1 h23
      injection h23 with h2 h3
      subst h1
      subst h2
      subst h3
      exact inv_ret_unchanged _ _ _ hall hhist
    · split at heq
      · exact ih _ _ _ _ _ _ _ _ _ _ heq hall hhist
      · split at heq
        next hsucc =>
          injection heq with h1 h23
          injection h23 with h2 h3
          subst h1
          subst h2
          subst h3
          exact inv_ret_success _ _ _ _ hall hhist hsucc
        next hfail =>
          have hfl : (execute_code env code st.current_data).1.success = false := by
            simpa using hfail
          have hall1 : ∀ e ∈ evs ++
              [(⟨a + 1, code, (execute_code env code st.current_data).1⟩ : EvRec)],
              e.result.success = false := by
            intro e he
            rcases List.mem_append.mp he with h | h
            · exact hall e h
            · rw [List.mem_singleton] at h
              subst h
              exact hfl
          have hhist1 : history ++
              [mkAttemptRec ⟨a + 1, code, (execute_code env code st.current_data).1⟩]
              = (evs ++ [(⟨a + 1, code, (execute_code env code st.current_data).1⟩ : EvRec)]).map
                  mkAttemptRec := by
            rw [List.map_append, hhist]
            rfl
          split at heq
          · injection heq with h1 h23
            injection h23 with h2 h3
            subst h1
            subst h2
            subst h3
            exact inv_ret_unchanged _ _ _ hall1 hhist1
          · split at heq
            · injection heq with h1 h23
              injection h23 with h2 h3
              subst h1
              subst h2
              subst h3
              exact inv_ret_unchanged _ _ _ hall1 hhist1
            · split at heq
              · injection heq with h1 h23
                injection h23 with h2 h3
                subst h1
                subst h2
                subst h3
                exact inv_ret_unchanged _ _ _ hall1 hhist1
              · split at heq
                · injection heq with h1 h23
                  injection h23 with h2 h3
                  subst h1
                  subst h2
                  subst h3
                  exact inv_ret_unchanged _ _ _ hall1 hhist1
                · lift_lets at heq
                  extract_lets at heq
                  split at heq
                  · exact ih _ _ _ _ _ _ _ _ _ _ heq hall1 hhist1
                  · split at heq
                    · split at heq
                      · injection heq with h1 h23
                        injection h23 with h2 h3
                        subst h1
                        subst h2
                        subst h3
                        exact inv_ret_unchanged _ _ _ hall1 hhist1
                      · injection heq with h1 h23
                        injection h23 with h2 h3
                        subst h1
                        subst h2
                        subst h3
                        exact inv_ret_unchanged _ _ _ hall1 hhist1
                    · split at heq
                      · injection heq with h1 h23
                        injection h23 with h2 h3
                        subst h1
                        subst h2
                        subst h3
                        exact inv_ret_unchanged _ _ _ hall1 hhist1
                      · exact ih _ _ _ _ _ _ _ _ _ _ heq hall1 hhist1

/-- C4: in every run of the code-generation repair loop (started, as
`_plan_and_execute` starts it, with an empty attempt history), the final
attempt history is exactly one record per FAILED execution, in order — so a
record is appended only immediately after an execution result with
`success = false`; every non-final execution failed — so a successful result
is never followed by another execution of that code; and when the final
execution succeeds the loop returns its formatted result at once, leaving no
record for it. -/
theorem C4_attempt_records (env : Env) (fuel : Nat) (st : AgentSt) (code : Str)
    (expl : Option Str) (q : Str) (a : Nat) :
    ((code_gen_loop env fuel st code expl q a [] []).2.1 =
      ((code_gen_loop env fuel st code expl q a [] []).2.2.filter
        (fun e => !e.result.success)).map mkAttemptRec) ∧
    (∀ e ∈ (code_gen_loop env fuel st code expl q a [] []).2.2.dropLast,
      e.result.success = false) ∧
    (∀ e, (code_gen_loop env fuel st code expl q a [] []).2.2.getLast? = some e →
      e.result.success = true →
      ∃ stF, (code_gen_loop env fuel st code expl q a [] []).1 =
        LoopExit.ret (RetVal.str (format_code_output e.result)) stF) :=
  code_gen_loop_inv env fuel st code expl q a [] []
    (code_gen_loop env fuel st code expl q a [] []).1
    (code_gen_loop env fuel st code expl q a [] []).2.1
    (code_gen_loop env fuel st code expl q a [] []).2.2
    rfl (by simp) rfl

/-- Agent state for the C4 witness run: previous execution recorded and a
dataset loaded. -/
def stC4 : AgentSt := { stPrev with current_data := some dfW }

/-- Environment for the C4 witness run: the operator confirms execution and
then picks choice 3; the snippet raises; the repair oracle answers without a
code block. -/
def envC4 : Env :=
  { envNull with
    user_input := fun k => if k = 0 then lit "yes" else lit "3",
    pySem := fun _ ns => PyOutcome.raises excW (frameInNs ns),
    llm := fun _ _ => .ok (lit "ERROR ANALYSIS: bad\nPROPOSED FIXES: retry") }

/-- Witness for C4 on a concrete run: one failed execution, one attempt
record (mirroring it), operator quits via choice 3. -/
theorem C4_witness :
    (((code_gen_loop envC4 2 stC4 (lit "print(x)") none (lit "plot data") 0 [] []).2.1 =
      ((code_gen_loop envC4 2 stC4 (lit "print(x)") none (lit "plot data") 0 [] []).2.2.filter
        (fun e => !e.result.success)).map mkAttemptRec) ∧
    (∀ e ∈ (code_gen_loop envC4 2 stC4 (lit "print(x)") none (lit "plot data") 0 [] []).2.2.dropLast,
      e.result.success = false) ∧
    (∀ e, (code_gen_loop envC4 2 stC4 (lit "print(x)") none (lit "plot data") 0 [] []).2.2.getLast?
        = some e → e.result.success = true →
      ∃ stF, (code_gen_loop envC4 2 stC4 (lit "print(x)") none (lit "plot data") 0 [] []).1 =
        LoopExit.ret (RetVal.str (format_code_output e.result)) stF)) ∧
    (code_gen_loop envC4 2 stC4 (lit "print(x)") none (lit "plot data") 0 [] []).2.2.length = 1 ∧
    ((code_gen_loop envC4 2 stC4 (lit "print(x)") none (lit "plot data") 0 [] []).2.1.map
      AttemptRec.attempt) = [1] :=
  ⟨C4_attempt_records envC4 2 stC4 (lit "print(x)") none (lit "plot data") 0,
   by decide, by decide⟩
